import Mathlib

/-!
Verification of the gem5 + McPAT design-space-exploration harness
(`NSGA-II/simulator.py`, `NSGA-II/nsga2_optimizer.py`,
`NSGA-II_Test/design_space.py`, `NSGA-II_Test/simulator.py`).

Python strings are modelled as `List Char`; Python floats are modelled as
exact rationals extended with the IEEE special values `+inf`, `-inf`, `nan`
(binary rounding is ignored; the special-value propagation rules of `+` and
`*`, including `0 * inf = nan`, are kept, because the simulator relies on
`float('inf')` sentinels).  External subprocess invocations are modelled by
an environment record enumerating their possible outcomes.
-/

/-- Python float value: an exact rational or one of the IEEE specials. -/
inductive EF where
  | fin : ℚ → EF
  | pinf : EF
  | ninf : EF
  | nan : EF
deriving DecidableEq

/-- IEEE addition on the model (`+inf + -inf = nan`, `nan` absorbs). -/
def EF.add : EF → EF → EF
  | .nan, _ => .nan
  | _, .nan => .nan
  | .pinf, .ninf => .nan
  | .ninf, .pinf => .nan
  | .pinf, _ => .pinf
  | _, .pinf => .pinf
  | .ninf, _ => .ninf
  | _, .ninf => .ninf
  | .fin a, .fin b => .fin (a + b)

/-- IEEE multiplication on the model (`0 * inf = nan`, signs propagate). -/
def EF.mul : EF → EF → EF
  | .nan, _ => .nan
  | _, .nan => .nan
  | .fin a, .pinf => if a = 0 then .nan else if 0 < a then .pinf else .ninf
  | .pinf, .fin a => if a = 0 then .nan else if 0 < a then .pinf else .ninf
  | .fin a, .ninf => if a = 0 then .nan else if 0 < a then .ninf else .pinf
  | .ninf, .fin a => if a = 0 then .nan else if 0 < a then .ninf else .pinf
  | .pinf, .pinf => .pinf
  | .pinf, .ninf => .ninf
  | .ninf, .pinf => .ninf
  | .ninf, .ninf => .pinf
  | .fin a, .fin b => .fin (a * b)

/-- IEEE negation on the model. -/
def EF.neg : EF → EF
  | .fin a => .fin (-a)
  | .pinf => .ninf
  | .ninf => .pinf
  | .nan => .nan

/-- Characters accepted by Python's regex class `\s` (ASCII). -/
def isPySpace (c : Char) : Bool :=
  c = ' ' || c = '\t' || c = '\n' || c = '\r' || c = '\x0b' || c = '\x0c'

/-- Numeric value of a list of decimal digit characters (most significant
first), as read by Python's `float`/`int` conversions. -/
def digitsVal (ds : List Char) : ℕ :=
  ds.foldl (fun a c => 10 * a + (c.toNat - 48)) 0

/-- Value of the fixed-point literal `d1 . d2` (e.g. `2.500000` is `5/2`). -/
def ratOfDigits (d1 d2 : List Char) : ℚ :=
  (digitsVal d1 : ℚ) + (digitsVal d2 : ℚ) / 10 ^ d2.length

/-- Match a literal prefix; on success return the remaining input.
Models the literal portion of the fixed regexes. -/
def dropLit : List Char → List Char → Option (List Char)
  | [], s => some s
  | _ :: _, [] => none
  | l :: ls, c :: cs => if c = l then dropLit ls cs else none

/-- `\s+`: at least one whitespace character, maximal munch. -/
def skipSpaces1 (s : List Char) : Option (List Char) :=
  let p := s.span isPySpace
  if p.1.isEmpty then none else some p.2

/-- `\s*`: any run of whitespace, maximal munch. -/
def skipSpaces0 (s : List Char) : List Char :=
  (s.span isPySpace).2

/-- `(\d+\.\d+)`: mandatory fractional part, maximal munch.  Because the
digit class, `.`, whitespace and the following context are disjoint
character sets, maximal munch coincides with Python's backtracking.  The
group is kept as its two digit runs; `float()` conversion happens at the
call site (`ratOfDigits`). -/
def parseFixedFloat (s : List Char) : Option ((List Char × List Char) × List Char) :=
  let p := s.span Char.isDigit
  if p.1.isEmpty then none else
  match p.2 with
  | '.' :: s2 =>
    let q := s2.span Char.isDigit
    if q.1.isEmpty then none else some ((p.1, q.1), q.2)
  | _ => none

/-- `(\d+\.?\d*)`: optional fractional part, maximal munch.  An absent
fractional part is an empty digit run (`ratOfDigits d []` is `float(d)`). -/
def parseLooseFloat (s : List Char) : Option ((List Char × List Char) × List Char) :=
  let p := s.span Char.isDigit
  if p.1.isEmpty then none else
  match p.2 with
  | '.' :: s2 =>
    let q := s2.span Char.isDigit
    some ((p.1, q.1), q.2)
  | _ => some ((p.1, []), p.2)

/-- `(\d+)`: a run of digits, kept as the matched group. -/
def parseIntDigits (s : List Char) : Option (List Char × List Char) :=
  let p := s.span Char.isDigit
  if p.1.isEmpty then none else some (p.1, p.2)

/-- `re.search`: try the anchored matcher at each position, leftmost first. -/
def research {α : Type} (m : List Char → Option α) : List Char → Option α
  | [] => m []
  | c :: rest =>
    match m (c :: rest) with
    | some v => some v
    | none => research m rest

/-- Anchored matcher for `system\.cpu\.cpi\s+(\d+\.\d+)`. -/
def matchCpiAt (s : List Char) : Option (List Char × List Char) :=
  (dropLit "system.cpu.cpi".toList s).bind fun s1 =>
    (skipSpaces1 s1).bind fun s2 =>
      (parseFixedFloat s2).map Prod.fst

/-- Anchored matcher for `simSeconds\s+(\d+\.\d+)`. -/
def matchSimSecondsAt (s : List Char) : Option (List Char × List Char) :=
  (dropLit "simSeconds".toList s).bind fun s1 =>
    (skipSpaces1 s1).bind fun s2 =>
      (parseFixedFloat s2).map Prod.fst

/-- Anchored matcher for `simTicks\s+(\d+)`. -/
def matchTicksAt (s : List Char) : Option (List Char) :=
  (dropLit "simTicks".toList s).bind fun s1 =>
    (skipSpaces1 s1).bind fun s2 =>
      (parseIntDigits s2).map Prod.fst

/-- Anchored matcher for `LIT\s*=\s*(\d+\.?\d*)\s*W` with `LIT` a literal
label (used with `Runtime Dynamic` and `Total Leakage`). -/
def matchWattAt (lit : List Char) (s : List Char) : Option (List Char × List Char) :=
  (dropLit lit s).bind fun s1 =>
    match skipSpaces0 s1 with
    | '=' :: s3 =>
      (parseLooseFloat (skipSpaces0 s3)).bind fun qr =>
        match skipSpaces0 qr.2 with
        | 'W' :: _ => some qr.1
        | _ => none
    | _ => none

/-- `re.search(r'system\.cpu\.cpi\s+(\d+\.\d+)', content)`: the matched
group, as its two digit runs. -/
def searchCpi (content : List Char) : Option (List Char × List Char) :=
  research matchCpiAt content

/-- `re.search(r'simSeconds\s+(\d+\.\d+)', content)`. -/
def searchSimSeconds (content : List Char) : Option (List Char × List Char) :=
  research matchSimSecondsAt content

/-- `re.search(r'simTicks\s+(\d+)', content)`. -/
def searchSimTicks (content : List Char) : Option (List Char) :=
  research matchTicksAt content

/-- `re.search(r'Runtime Dynamic\s*=\s*(\d+\.?\d*)\s*W', content)`. -/
def searchRuntimeDynamic (content : List Char) : Option (List Char × List Char) :=
  research (matchWattAt "Runtime Dynamic".toList) content

/-- `re.search(r'Total Leakage\s*=\s*(\d+\.?\d*)\s*W', content)`. -/
def searchTotalLeakage (content : List Char) : Option (List Char × List Char) :=
  research (matchWattAt "Total Leakage".toList) content

/-- `float(group)` for a fixed-point group split into its digit runs. -/
def floatOfGroup (g : List Char × List Char) : ℚ :=
  ratOfDigits g.1 g.2

/-- `int(group)` for a digit-run group. -/
def intOfGroup (g : List Char) : ℤ :=
  (digitsVal g : ℤ)

/-- Result of `Gem5Simulator._parse_gem5_stats`. -/
structure Gem5Stats where
  cpi : EF
  ipc : EF
  sim_seconds : Option ℚ
  sim_ticks : Option ℤ
deriving DecidableEq

/-- `Gem5Simulator._parse_gem5_stats` (`NSGA-II/simulator.py` 208-240):
search the three fields; if cpi matched, `ipc = 1/cpi if cpi > 0 else 0`;
if cpi is absent, `cpi = inf`, `ipc = 0`. -/
def parseGem5Stats (content : List Char) : Gem5Stats :=
  match searchCpi content with
  | some g =>
    let q := floatOfGroup g
    { cpi := .fin q
      ipc := if 0 < q then .fin (1 / q) else .fin 0
      sim_seconds := (searchSimSeconds content).map floatOfGroup
      sim_ticks := (searchSimTicks content).map intOfGroup }
  | none =>
    { cpi := .pinf
      ipc := .fin 0
      sim_seconds := (searchSimSeconds content).map floatOfGroup
      sim_ticks := (searchSimTicks content).map intOfGroup }

/-- Result of `Gem5Simulator._parse_mcpat_output`. -/
structure McpatMetrics where
  runtime_dynamic : ℚ
  total_leakage : ℚ
deriving DecidableEq

/-- `Gem5Simulator._parse_mcpat_output` (`NSGA-II/simulator.py` 309-327):
each labelled power figure defaults to 0 when its pattern is absent. -/
def parseMcpatOutput (content : List Char) : McpatMetrics :=
  { runtime_dynamic := ((searchRuntimeDynamic content).map floatOfGroup).getD 0
    total_leakage := ((searchTotalLeakage content).map floatOfGroup).getD 0 }

/-- The metrics record persisted per evaluation. -/
structure Metrics where
  ipc : EF
  cpi : EF
  energy : EF
  edp : EF
  runtime_power : ℚ
  leakage_power : ℚ
  total_power : ℚ
  sim_seconds : ℚ
  sim_ticks : Option ℤ
deriving DecidableEq

/-- `Gem5Simulator._calculate_final_metrics` (`NSGA-II/simulator.py`
329-355, identical in `NSGA-II_Test/simulator.py` 330-367):
`total_power = runtime + leakage`, `energy = total_power * cpi`,
`edp = energy * cpi`; `sim_seconds` defaults to 0 via Python `or`. -/
def calculateFinalMetrics (g : Gem5Stats) (m : McpatMetrics) : Metrics :=
  let total := m.runtime_dynamic + m.total_leakage
  let energy := EF.mul (.fin total) g.cpi
  { ipc := g.ipc
    cpi := g.cpi
    energy := energy
    edp := EF.mul energy g.cpi
    runtime_power := m.runtime_dynamic
    leakage_power := m.total_leakage
    total_power := total
    sim_seconds := g.sim_seconds.getD 0
    sim_ticks := g.sim_ticks }

/-- `Gem5Simulator._get_invalid_metrics` (`NSGA-II/simulator.py` 357-369). -/
def getInvalidMetrics : Metrics :=
  { ipc := .fin 0
    cpi := .pinf
    energy := .pinf
    edp := .pinf
    runtime_power := 0
    leakage_power := 0
    total_power := 0
    sim_seconds := 0
    sim_ticks := some 0 }

/-- Digit-accumulating loop for `natDigits`; the fuel argument makes the
recursion structural (`fuel > n` suffices, so it never runs out). -/
def natDigitsGo : ℕ → ℕ → List Char → List Char
  | 0, _, acc => acc
  | fuel + 1, n, acc =>
    if n / 10 = 0 then Nat.digitChar (n % 10) :: acc
    else natDigitsGo fuel (n / 10) (Nat.digitChar (n % 10) :: acc)

/-- Decimal digits of a natural number, most significant first
(the digits produced by Python's `str`). -/
def natDigits (n : ℕ) : List Char :=
  natDigitsGo (n + 1) n []

/-- Python `str` on an `int`: decimal digits with a leading `-` sign for
negative values. -/
def pyStrInt (n : ℤ) : List Char :=
  if n < 0 then '-' :: natDigits (-n).toNat else natDigits n.toNat

/-- Python `str` on the `sim_ticks` slot, which may hold `None`. -/
def pyStrOptInt : Option ℤ → List Char
  | none => "None".toList
  | some n => pyStrInt n

/-- Left-pad a digit run with zeros to `p` characters. -/
def padZeros (p : ℕ) (l : List Char) : List Char :=
  List.replicate (p - l.length) '0' ++ l

/-- Round to the nearest integer, ties to even (the rounding used by
`format` on floats; on our exact rationals, ties are the only divergence
from any other nearest-rounding and never arise in the claims). -/
def roundHalfEven (x : ℚ) : ℤ :=
  if Int.fract x < 1 / 2 then ⌊x⌋
  else if 1 / 2 < Int.fract x then ⌊x⌋ + 1
  else if ⌊x⌋ % 2 = 0 then ⌊x⌋ else ⌊x⌋ + 1

/-- Python `f"{x:.pf}"` fixed-point formatting: `p` digits after the
decimal point for finite values; `inf`/`-inf`/`nan` for the specials. -/
def pyFix (p : ℕ) (x : EF) : List Char :=
  match x with
  | .pinf => "inf".toList
  | .ninf => "-inf".toList
  | .nan => "nan".toList
  | .fin q =>
    let n := (roundHalfEven (|q| * 10 ^ p)).toNat
    (if q < 0 then ['-'] else []) ++
      natDigits (n / 10 ^ p) ++ '.' :: padZeros p (natDigits (n % 10 ^ p))

/-- A decoded configuration as consumed by `NSGA-II/simulator.py`:
the ten cache/queue parameters are indexed directly (`config[...]`), the
two functional-unit counts only through `config.get(..., 2)`, so they may
be absent from that variant's design space. -/
structure Config where
  L1I_size : List Char
  L1I_assoc : ℤ
  L1D_size : List Char
  L1D_assoc : ℤ
  L2_size : List Char
  L2_assoc : ℤ
  L3_size : List Char
  L3_assoc : ℤ
  load_queue : ℤ
  store_queue : ℤ
  num_fu_read : Option ℤ
  num_fu_write : Option ℤ
deriving DecidableEq

/-- A decoded configuration as consumed by `NSGA-II_Test/simulator.py`,
where all twelve parameters are indexed directly. -/
structure ConfigT where
  L1I_size : List Char
  L1I_assoc : ℤ
  L1D_size : List Char
  L1D_assoc : ℤ
  L2_size : List Char
  L2_assoc : ℤ
  L3_size : List Char
  L3_assoc : ℤ
  load_queue : ℤ
  store_queue : ℤ
  num_fu_read : ℤ
  num_fu_write : ℤ
deriving DecidableEq

/-- Fixed paths handed to the command builders (derived from
`workspace_dir` in `Gem5Simulator.__init__`). -/
structure SimPaths where
  gem5_binary : List Char
  config_script : List Char
  workload_binary : List Char
  workload_input : List Char
deriving DecidableEq

/-- `Gem5Simulator._build_gem5_command` (`NSGA-II/simulator.py` 180-206).
Cache sizes are passed as the literal strings, associativities and queue
depths through `str()`; the functional-unit counts are NOT passed. -/
def buildGem5Command (ws : SimPaths) (pid : ℤ) (cfg : Config) (outdir : List Char) :
    List (List Char) :=
  let output_mp3 :=
    "/tmp/out_".toList ++ pyStrInt pid ++ '_' :: cfg.L1D_size ++ '_' ::
      cfg.L2_size ++ ".mp3".toList
  [ws.gem5_binary,
   "--outdir=".toList ++ outdir,
   ws.config_script,
   "--cmd".toList, ws.workload_binary,
   "--options".toList, ws.workload_input ++ ' ' :: output_mp3,
   "--l1i_size".toList, cfg.L1I_size,
   "--l1i_assoc".toList, pyStrInt cfg.L1I_assoc,
   "--l1d_size".toList, cfg.L1D_size,
   "--l1d_assoc".toList, pyStrInt cfg.L1D_assoc,
   "--l2_size".toList, cfg.L2_size,
   "--l2_assoc".toList, pyStrInt cfg.L2_assoc,
   "--l3_size".toList, cfg.L3_size,
   "--l3_assoc".toList, pyStrInt cfg.L3_assoc,
   "--lq_entries".toList, pyStrInt cfg.load_queue,
   "--sq_entries".toList, pyStrInt cfg.store_queue]

/-- `Gem5Simulator._build_gem5_command` (`NSGA-II_Test/simulator.py`
192-222): same command with the two functional-unit flags appended. -/
def buildGem5CommandTest (ws : SimPaths) (pid : ℤ) (cfg : ConfigT) (outdir : List Char) :
    List (List Char) :=
  let output_mp3 :=
    "/tmp/out_".toList ++ pyStrInt pid ++ '_' :: cfg.L1D_size ++ '_' ::
      cfg.L2_size ++ ".mp3".toList
  [ws.gem5_binary,
   "--outdir=".toList ++ outdir,
   ws.config_script,
   "--cmd".toList, ws.workload_binary,
   "--options".toList, ws.workload_input ++ ' ' :: output_mp3,
   "--l1i_size".toList, cfg.L1I_size,
   "--l1i_assoc".toList, pyStrInt cfg.L1I_assoc,
   "--l1d_size".toList, cfg.L1D_size,
   "--l1d_assoc".toList, pyStrInt cfg.L1D_assoc,
   "--l2_size".toList, cfg.L2_size,
   "--l2_assoc".toList, pyStrInt cfg.L2_assoc,
   "--l3_size".toList, cfg.L3_size,
   "--l3_assoc".toList, pyStrInt cfg.L3_assoc,
   "--lq_entries".toList, pyStrInt cfg.load_queue,
   "--sq_entries".toList, pyStrInt cfg.store_queue,
   "--num_fu_read".toList, pyStrInt cfg.num_fu_read,
   "--num_fu_write".toList, pyStrInt cfg.num_fu_write]

/-- The flag/value pair `[flag, v]` occurs at offset `i` of the argument
vector. -/
def argPairAt (cmd : List (List Char)) (i : ℕ) (flag v : List Char) : Prop :=
  (cmd.drop i).take 2 = [flag, v]

/-- Some adjacent flag/value pair of the argument vector is `[flag, v]`. -/
def hasArgPair (cmd : List (List Char)) (flag v : List Char) : Prop :=
  ∃ i, argPairAt cmd i flag v

/-- The fixed 23-column CSV header written by
`Gem5Simulator._create_csv_header` (`NSGA-II/simulator.py` 54-73). -/
def csvHeaderRow : List (List Char) :=
  ["sim_id".toList, "timestamp".toList,
   "L1I_size".toList, "L1I_assoc".toList,
   "L1D_size".toList, "L1D_assoc".toList,
   "L2_size".toList, "L2_assoc".toList,
   "L3_size".toList, "L3_assoc".toList,
   "load_queue".toList, "store_queue".toList,
   "num_fu_read".toList, "num_fu_write".toList,
   "ipc".toList, "cpi".toList, "energy".toList, "edp".toList,
   "runtime_power".toList, "leakage_power".toList, "total_power".toList,
   "sim_seconds".toList, "sim_ticks".toList]

/-- One CSV data row as written by `Gem5Simulator._log_result`
(`NSGA-II/simulator.py` 371-397): metric floats through `f"{..:.6f}"`
(`edp` through `f"{..:.10f}"`), `sim_ticks` through `str`, functional-unit
counts through `config.get(.., 2)`. -/
def renderRow (simId : ℤ) (ts : List Char) (cfg : Config) (m : Metrics) :
    List (List Char) :=
  [pyStrInt simId, ts,
   cfg.L1I_size, pyStrInt cfg.L1I_assoc,
   cfg.L1D_size, pyStrInt cfg.L1D_assoc,
   cfg.L2_size, pyStrInt cfg.L2_assoc,
   cfg.L3_size, pyStrInt cfg.L3_assoc,
   pyStrInt cfg.load_queue, pyStrInt cfg.store_queue,
   pyStrInt (cfg.num_fu_read.getD 2), pyStrInt (cfg.num_fu_write.getD 2),
   pyFix 6 m.ipc, pyFix 6 m.cpi,
   pyFix 6 m.energy, pyFix 10 m.edp,
   pyFix 6 (.fin m.runtime_power), pyFix 6 (.fin m.leakage_power),
   pyFix 6 (.fin m.total_power),
   pyFix 6 (.fin m.sim_seconds), pyStrOptInt m.sim_ticks]

/-- Outcome of one external `subprocess.run` invocation. -/
inductive ProcResult where
  | completed : ℤ → ProcResult
  | timedOut : ProcResult
  | raised : ProcResult
deriving DecidableEq

/-- Environment of one evaluation: outcomes of the external processes and
contents of the files they leave behind. -/
structure Env where
  gem5 : ProcResult
  statsExists : Bool
  stats : List Char
  configJsonExists : Bool
  configJsonSize : ℕ
  mcpatGen : ProcResult
  xmlExists : Bool
  xmlSize : ℕ
  mcpat : ProcResult
  mcpatOut : List Char
deriving DecidableEq

/-- `Gem5Simulator._run_mcpat` (`NSGA-II/simulator.py` 242-307): any
failure of the translation step, a missing or empty `config.xml`, any
failure of the McPAT binary, a timeout or an exception all yield zero
dynamic and zero leakage power; only a clean run is parsed. -/
def runMcpat (env : Env) : McpatMetrics :=
  match env.mcpatGen with
  | .timedOut => ⟨0, 0⟩
  | .raised => ⟨0, 0⟩
  | .completed rc =>
    if rc ≠ 0 then ⟨0, 0⟩
    else if env.xmlExists = false then ⟨0, 0⟩
    else if env.xmlSize = 0 then ⟨0, 0⟩
    else
      match env.mcpat with
      | .timedOut => ⟨0, 0⟩
      | .raised => ⟨0, 0⟩
      | .completed rc2 => if rc2 ≠ 0 then ⟨0, 0⟩ else parseMcpatOutput env.mcpatOut

/-- `os.path.exists` + `shutil.rmtree` in the `finally` block of
`run_simulation`: the scratch directory is removed when present. -/
def cleanupTmpdir (present : Bool) : Bool :=
  if present then false else present

/-- Result of one `run_simulation` call: the metrics returned to the
caller, the rows appended to the ledger (in order), and whether the
scratch directory still exists after the call. -/
structure SimResult where
  metrics : Metrics
  rows : List (List (List Char))
  tmpdirAfter : Bool
deriving DecidableEq

/-- The rows `_log_result` appends: one per call when a ledger file is
configured, none otherwise. -/
def renderRowsIf (logOn : Bool) (r : List (List Char)) : List (List (List Char)) :=
  if logOn then [r] else []

/-- The failure path shared by every `except`/early-return branch of
`run_simulation`: invalid metrics, one ledger row, scratch dir removed. -/
def failResult (logOn : Bool) (simId : ℤ) (ts : List Char) (cfg : Config) : SimResult :=
  { metrics := getInvalidMetrics
    rows := renderRowsIf logOn (renderRow simId ts cfg getInvalidMetrics)
    tmpdirAfter := cleanupTmpdir true }

/-- `Gem5Simulator.run_simulation` (`NSGA-II/simulator.py` 75-178).
The scratch directory `/dev/shm/sim_{id:04d}` is created on entry
(`present = true` throughout the body) and removed in the `finally`
block on every path.  A non-zero gem5 exit code, a missing `stats.txt`,
a missing or empty `config.json`, a timeout or an unexpected exception
all produce the invalid sentinel; otherwise the stats are parsed, McPAT
is attempted and the combined metrics are computed.  Every path logs
exactly one row (when a ledger file is configured). -/
def runSimulation (logOn : Bool) (env : Env) (cfg : Config) (simId : ℤ)
    (ts : List Char) : SimResult :=
  match env.gem5 with
  | .timedOut => failResult logOn simId ts cfg
  | .raised => failResult logOn simId ts cfg
  | .completed rc =>
    if rc ≠ 0 then failResult logOn simId ts cfg
    else if env.statsExists = false then failResult logOn simId ts cfg
    else if env.configJsonExists = false then failResult logOn simId ts cfg
    else if env.configJsonSize = 0 then failResult logOn simId ts cfg
    else
      let m := calculateFinalMetrics (parseGem5Stats env.stats) (runMcpat env)
      { metrics := m
        rows := renderRowsIf logOn (renderRow simId ts cfg m)
        tmpdirAfter := cleanupTmpdir true }

/-- One atomic `sim_id` allocation under the shared lock
(`CacheOptimizationProblem._evaluate`, `NSGA-II/nsga2_optimizer.py`
43-45): read the counter, hand the value out, increment. -/
def allocStep (c : ℕ) : ℕ × ℕ :=
  (c, c + 1)

/-- The ids handed out by `k` consecutive atomic allocations starting
from counter value `c` (the lock serialises all allocations, so any
interleaving of the concurrent callers produces this trace). -/
def allocTrace (c : ℕ) : ℕ → List ℕ
  | 0 => []
  | k + 1 => (allocStep c).1 :: allocTrace (allocStep c).2 k

/-- What one `_evaluate` call produces: the objective vector written to
`out["F"]`, the counter value after the locked increment, and the
pipeline side effects. -/
structure EvalOutcome where
  objectives : EF × EF × EF
  counterAfter : ℕ
  sim : SimResult
deriving DecidableEq

/-- `CacheOptimizationProblem._evaluate` (`NSGA-II/nsga2_optimizer.py`
40-59): allocate an id under the lock, run the pipeline, return the
objective vector `(-ipc, energy, edp)`. -/
def evaluateIndividual (logOn : Bool) (env : Env) (cfg : Config) (counter : ℕ)
    (ts : List Char) : EvalOutcome :=
  let a := allocStep counter
  let r := runSimulation logOn env cfg (a.1 : ℤ) ts
  { objectives := (EF.neg r.metrics.ipc, r.metrics.energy, r.metrics.edp)
    counterAfter := a.2
    sim := r }

/-- A value of the `NSGA-II_Test/design_space.py` table: a size string or
an integer. -/
inductive PVal where
  | str : List Char → PVal
  | int : ℤ → PVal
deriving DecidableEq

/-- `DESIGN_SPACE` (`NSGA-II_Test/design_space.py` 6-30): ordered table
of parameter name to allowed values. -/
def DESIGN_SPACE : List (List Char × List PVal) :=
  [("L1I_size".toList, [.str "64kB".toList, .str "128kB".toList]),
   ("L1I_assoc".toList, [.int 4]),
   ("L1D_size".toList,
    [.str "64kB".toList, .str "128kB".toList, .str "512kB".toList, .str "1MB".toList]),
   ("L1D_assoc".toList, [.int 2, .int 4, .int 8]),
   ("L2_size".toList,
    [.str "128kB".toList, .str "256kB".toList, .str "512kB".toList, .str "1MB".toList]),
   ("L2_assoc".toList, [.int 8, .int 16]),
   ("L3_size".toList, [.str "2MB".toList]),
   ("L3_assoc".toList, [.int 16]),
   ("load_queue".toList, [.int 48, .int 64, .int 72]),
   ("store_queue".toList, [.int 64, .int 72, .int 80]),
   ("num_fu_read".toList, [.int 2, .int 3, .int 4]),
   ("num_fu_write".toList, [.int 1, .int 2])]

/-- `idx = max(0, min(idx, len(values) - 1))`. -/
def clampIdx (x : ℤ) (n : ℕ) : ℤ :=
  max 0 (min x ((n : ℤ) - 1))

/-- `decode_individual` (`NSGA-II_Test/design_space.py` 35-45): clamp each
entry into its parameter's index range and look the value up.  The Python
loop walks the parameter list by position; `zipWith` matches it whenever
the candidate has at least one entry per parameter. -/
def decode_individual (x : List ℤ) : List (List Char × PVal) :=
  List.zipWith
    (fun p xi => (p.1, p.2.getD (clampIdx xi p.2.length).toNat (PVal.int 0)))
    DESIGN_SPACE x

/-- `get_bounds` (`NSGA-II_Test/design_space.py` 47-53): lower bounds all
zero, upper bounds `len(values) - 1` per parameter. -/
def get_bounds : List ℤ × List ℤ :=
  (List.replicate DESIGN_SPACE.length 0,
   DESIGN_SPACE.map fun p => (p.2.length : ℤ) - 1)

/-- State of the ledger file: `none` when the file does not exist. -/
def FileState : Type :=
  Option (List (List (List Char)))

/-- `Gem5Simulator.__init__` ledger handling: write the header (mode
`w`) only when the file does not yet exist. -/
def initLedger (fs : FileState) : FileState :=
  match fs with
  | none => some [csvHeaderRow]
  | some l => some l

/-- Appending rows in mode `a` (creates the file when absent). -/
def appendRows (fs : FileState) (rows : List (List (List Char))) : FileState :=
  match fs with
  | none => some rows
  | some l => some (l ++ rows)

/-- Inputs of one evaluation in a run. -/
structure EvalInput where
  env : Env
  cfg : Config
  simId : ℤ
  ts : List Char
deriving DecidableEq

/-- The metrics an evaluation produces. -/
def metricsOf (e : EvalInput) : Metrics :=
  (runSimulation true e.env e.cfg e.simId e.ts).metrics

/-- The single ledger row an evaluation appends. -/
def rowOf (e : EvalInput) : List (List Char) :=
  renderRow e.simId e.ts e.cfg (metricsOf e)

/-- One evaluation against the ledger: a `Gem5Simulator` is constructed
(writing the header when the file is new, as `_evaluate` does per call)
and `run_simulation` appends its rows. -/
def evalStep (fs : FileState) (e : EvalInput) : FileState :=
  appendRows (initLedger fs) (runSimulation true e.env e.cfg e.simId e.ts).rows

/-- A run of evaluations against the ledger file. -/
def runLedger (fs : FileState) (es : List EvalInput) : FileState :=
  es.foldl evalStep fs

/-- The shape of a fixed-point rendering: some prefix without a dot,
then a dot, then exactly `p` digits. -/
def hasFracDigits (p : ℕ) (s : List Char) : Prop :=
  ∃ a b, s = a ++ '.' :: b ∧ b.length = p ∧ (∀ c ∈ b, c.isDigit) ∧ '.' ∉ a

/-- Stage A failed as a whole: non-zero exit, timeout, unexpected
exception, missing `stats.txt`, or missing/empty `config.json` — the
paths of `run_simulation` that return `_get_invalid_metrics()`. -/
def gem5Failed (env : Env) : Prop :=
  env.gem5 = .timedOut ∨ env.gem5 = .raised ∨
    (∃ rc, env.gem5 = .completed rc ∧ rc ≠ 0) ∨
    env.statsExists = false ∨ env.configJsonExists = false ∨
    env.configJsonSize = 0

/-- Stage B failed: translation step failed or timed out, `config.xml`
missing or empty, or the power estimator failed or timed out — the paths
of `_run_mcpat` that return zero powers without parsing. -/
def stageBFailed (env : Env) : Prop :=
  env.mcpatGen = .timedOut ∨ env.mcpatGen = .raised ∨
    (∃ rc, env.mcpatGen = .completed rc ∧ rc ≠ 0) ∨
    env.xmlExists = false ∨ env.xmlSize = 0 ∨
    env.mcpat = .timedOut ∨ env.mcpat = .raised ∨
    (∃ rc, env.mcpat = .completed rc ∧ rc ≠ 0)

/-- Stage A stats fixture of the spec's acceptance test. -/
def statsFixture : List Char :=
  "system.cpu.cpi 2.500000".toList

/-- Stage B power-report fixture of the spec's acceptance test. -/
def powerFixture : List Char :=
  "Runtime Dynamic = 0.8 W\nTotal Leakage = 0.2 W".toList

/-- A stats report whose cpi parses as the non-positive value 0. -/
def statsZeroCpi : List Char :=
  "system.cpu.cpi 0.000000\nsimSeconds 1.500000\nsimTicks 3000\n".toList

/-- A stats report with a cpi line but no `simTicks` line. -/
def statsNoTicks : List Char :=
  "system.cpu.cpi 2.500000\n".toList

/-- A stats report with no cpi line at all (a Stage A parse failure). -/
def statsNoCpi : List Char :=
  "simSeconds 1.500000\nsimTicks 3000\n".toList

/-- A concrete decoded configuration. -/
def cfg0 : Config :=
  { L1I_size := "64kB".toList, L1I_assoc := 4
    L1D_size := "64kB".toList, L1D_assoc := 2
    L2_size := "128kB".toList, L2_assoc := 8
    L3_size := "2MB".toList, L3_assoc := 16
    load_queue := 48, store_queue := 64
    num_fu_read := some 2, num_fu_write := some 1 }

/-- A concrete decoded configuration for the Test variant. -/
def cfgT0 : ConfigT :=
  { L1I_size := "64kB".toList, L1I_assoc := 4
    L1D_size := "64kB".toList, L1D_assoc := 2
    L2_size := "128kB".toList, L2_assoc := 8
    L3_size := "2MB".toList, L3_assoc := 16
    load_queue := 48, store_queue := 64
    num_fu_read := 2, num_fu_write := 1 }

/-- Concrete tool paths (as derived from a workspace root). -/
def ws0 : SimPaths :=
  { gem5_binary := "/ws/gem5/build/ARM/gem5.fast".toList
    config_script := "/ws/gem5/scripts/CortexA76_scripts_gem5/CortexA76.py".toList
    workload_binary := "/ws/gem5/workloads/mp3_enc/mp3_enc".toList
    workload_input := "/ws/gem5/workloads/mp3_enc/mp3enc_testfile.wav".toList }

/-- A fully successful environment whose stats report a cpi of 0. -/
def envZeroCpi : Env :=
  { gem5 := .completed 0, statsExists := true, stats := statsZeroCpi
    configJsonExists := true, configJsonSize := 1
    mcpatGen := .completed 0, xmlExists := true, xmlSize := 1
    mcpat := .completed 0, mcpatOut := powerFixture }

/-- A fully successful environment whose stats lack a `simTicks` line. -/
def envNoTicks : Env :=
  { gem5 := .completed 0, statsExists := true, stats := statsNoTicks
    configJsonExists := true, configJsonSize := 1
    mcpatGen := .completed 0, xmlExists := true, xmlSize := 1
    mcpat := .completed 0, mcpatOut := powerFixture }

/-- A fully successful environment (process exit codes, files, Stage B)
whose stats lack a cpi line. -/
def envNoCpi : Env :=
  { gem5 := .completed 0, statsExists := true, stats := statsNoCpi
    configJsonExists := true, configJsonSize := 1
    mcpatGen := .completed 0, xmlExists := true, xmlSize := 1
    mcpat := .completed 0, mcpatOut := powerFixture }

/-- An environment whose Stage A simulation times out. -/
def envTimeout : Env :=
  { gem5 := .timedOut, statsExists := false, stats := []
    configJsonExists := false, configJsonSize := 0
    mcpatGen := .completed 0, xmlExists := false, xmlSize := 0
    mcpat := .completed 0, mcpatOut := [] }

/-- Stage A succeeds with the fixture stats but the McPAT translation
step times out. -/
def envStageBFail : Env :=
  { gem5 := .completed 0, statsExists := true, stats := statsFixture
    configJsonExists := true, configJsonSize := 1
    mcpatGen := .timedOut, xmlExists := false, xmlSize := 0
    mcpat := .completed 0, mcpatOut := [] }

/-- The C6 counterexample evaluation: fully successful run, stats
without a `simTicks` line. -/
def evalNoTicks : EvalInput :=
  { env := envNoTicks, cfg := cfg0, simId := 1, ts := "T".toList }

/-- A successful evaluation on the acceptance fixtures, used by the
ledger run theorems. -/
def evalFixture : EvalInput :=
  { env :=
      { gem5 := .completed 0, statsExists := true, stats := statsFixture
        configJsonExists := true, configJsonSize := 1
        mcpatGen := .completed 0, xmlExists := true, xmlSize := 1
        mcpat := .completed 0, mcpatOut := powerFixture }
    cfg := cfg0, simId := 2, ts := "T2".toList }

/-! ### Helper lemmas -/

theorem digitChar_isDigit {d : ℕ} (h : d < 10) : (Nat.digitChar d).isDigit := by
  interval_cases d <;> decide

theorem natDigitsGo_chars :
    ∀ (fuel n : ℕ) (acc : List Char), (∀ c ∈ acc, c.isDigit) →
      ∀ c ∈ natDigitsGo fuel n acc, c.isDigit := by
  intro fuel
  induction fuel with
  | zero => intro n acc hacc c hc; exact hacc c hc
  | succ fuel ih =>
    intro n acc hacc c hc
    rw [natDigitsGo] at hc
    split at hc
    · rcases List.mem_cons.mp hc with h | h
      · subst h; exact digitChar_isDigit (Nat.mod_lt _ (by omega))
      · exact hacc c h
    · refine ih _ _ ?_ c hc
      intro c' hc'
      rcases List.mem_cons.mp hc' with h | h
      · subst h; exact digitChar_isDigit (Nat.mod_lt _ (by omega))
      · exact hacc c' h

theorem natDigits_chars (n : ℕ) : ∀ c ∈ natDigits n, c.isDigit :=
  natDigitsGo_chars _ _ _ (by simp)

theorem pyStrInt_chars (n : ℤ) : ∀ c ∈ pyStrInt n, c.isDigit ∨ c = '-' := by
  intro c hc
  unfold pyStrInt at hc
  split at hc
  · rcases List.mem_cons.mp hc with h | h
    · right; exact h
    · left; exact natDigits_chars _ c h
  · left; exact natDigits_chars _ c hc

theorem pyStrInt_ne_simid (n : ℤ) : pyStrInt n ≠ "sim_id".toList := by
  intro h
  have hs : 's' ∈ pyStrInt n := by rw [h]; decide
  rcases pyStrInt_chars n 's' hs with h1 | h1
  · exact absurd h1 (by decide)
  · exact absurd h1 (by decide)

theorem pyStrInt_ne_noneLit (n : ℤ) : pyStrInt n ≠ "None".toList := by
  intro h
  have hs : 'N' ∈ pyStrInt n := by rw [h]; decide
  rcases pyStrInt_chars n 'N' hs with h1 | h1
  · exact absurd h1 (by decide)
  · exact absurd h1 (by decide)

theorem renderRow_ne_header (simId : ℤ) (ts : List Char) (cfg : Config)
    (m : Metrics) : renderRow simId ts cfg m ≠ csvHeaderRow := by
  intro h
  simp only [renderRow, csvHeaderRow, List.cons.injEq] at h
  exact pyStrInt_ne_simid simId h.1

theorem ratOfDigits_nonneg (d1 d2 : List Char) : 0 ≤ ratOfDigits d1 d2 := by
  unfold ratOfDigits
  positivity

theorem floatOfGroup_nonneg (g : List Char × List Char) : 0 ≤ floatOfGroup g :=
  ratOfDigits_nonneg g.1 g.2

theorem parseMcpatOutput_nonneg (content : List Char) :
    0 ≤ (parseMcpatOutput content).runtime_dynamic ∧
      0 ≤ (parseMcpatOutput content).total_leakage := by
  constructor
  · simp only [parseMcpatOutput]
    cases h : searchRuntimeDynamic content
    · simp
    · simp [floatOfGroup_nonneg]
  · simp only [parseMcpatOutput]
    cases h : searchTotalLeakage content
    · simp
    · simp [floatOfGroup_nonneg]

theorem allocTrace_mem (k : ℕ) :
    ∀ c j, j ∈ allocTrace c k ↔ c ≤ j ∧ j < c + k := by
  induction k with
  | zero => intro c j; simp [allocTrace]
  | succ k ih =>
    intro c j
    simp [allocTrace, allocStep, List.mem_cons, ih]
    omega

theorem allocTrace_length (k : ℕ) : ∀ c, (allocTrace c k).length = k := by
  induction k with
  | zero => intro c; rfl
  | succ k ih => intro c; simp [allocTrace, allocStep, ih]

theorem allocTrace_pairwise (k : ℕ) :
    ∀ c, List.Pairwise (· < ·) (allocTrace c k) := by
  induction k with
  | zero => intro c; simp [allocTrace]
  | succ k ih =>
    intro c
    simp only [allocTrace, allocStep, List.pairwise_cons]
    refine ⟨fun j hj => ?_, ih (c + 1)⟩
    have := (allocTrace_mem k (c + 1) j).mp hj
    omega

theorem clampIdx_toNat_lt (x : ℤ) (n : ℕ) (hn : 1 ≤ n) :
    (clampIdx x n).toNat < n := by
  unfold clampIdx
  have h1 : (0 : ℤ) ≤ max 0 (min x ((n : ℤ) - 1)) := le_max_left _ _
  have h2 : max 0 (min x ((n : ℤ) - 1)) ≤ (n : ℤ) - 1 :=
    max_le (by omega) (min_le_right _ _)
  omega

theorem getD_mem_of_lt {α : Type} (l : List α) (d : α) (n : ℕ)
    (h : n < l.length) : l.getD n d ∈ l := by
  rw [List.getD_eq_getElem l d h]
  exact l.getElem_mem h

theorem decode_zip_forall2 (ds : List (List Char × List PVal)) :
    (∀ p ∈ ds, p.2 ≠ []) → ∀ x : List ℤ, x.length = ds.length →
    List.Forall₂ (fun p q => q.1 = p.1 ∧ q.2 ∈ p.2) ds
      (List.zipWith
        (fun p xi => (p.1, p.2.getD (clampIdx xi p.2.length).toNat (PVal.int 0)))
        ds x) := by
  induction ds with
  | nil => intro _ x _; simp
  | cons p ds ih =>
    intro hds x hx
    cases x with
    | nil => simp at hx
    | cons a x =>
      simp only [List.zipWith]
      refine List.Forall₂.cons ⟨rfl, ?_⟩ ?_
      · apply getD_mem_of_lt
        apply clampIdx_toNat_lt
        have hne := hds p (List.mem_cons_self p ds)
        have := List.length_pos.mpr hne
        omega
      · exact ih (fun q hq => hds q (List.mem_cons_of_mem p hq)) x (by simpa using hx)

theorem runSimulation_rows (logOn : Bool) (env : Env) (cfg : Config)
    (simId : ℤ) (ts : List Char) :
    (runSimulation logOn env cfg simId ts).rows =
      renderRowsIf logOn
        (renderRow simId ts cfg (runSimulation logOn env cfg simId ts).metrics) := by
  unfold runSimulation
  cases env.gem5 <;> first
    | rfl
    | (simp only [failResult]; split_ifs <;> rfl)

theorem runSimulation_failed (logOn : Bool) (env : Env) (cfg : Config)
    (simId : ℤ) (ts : List Char) (h : gem5Failed env) :
    (runSimulation logOn env cfg simId ts).metrics = getInvalidMetrics := by
  unfold runSimulation
  cases hg : env.gem5 with
  | timedOut => rfl
  | raised => rfl
  | completed rc =>
    have hfail : rc ≠ 0 ∨ env.statsExists = false ∨
        env.configJsonExists = false ∨ env.configJsonSize = 0 := by
      unfold gem5Failed at h
      rcases h with h | h | ⟨rc2, h, hrc⟩ | h | h | h <;> simp_all
    rcases hfail with h5 | h5 | h5 | h5
    · simp [h5, failResult]
    · simp [h5, failResult]
    · simp [h5, failResult]
    · simp [h5, failResult]

theorem runMcpat_failed (env : Env) (h : stageBFailed env) :
    runMcpat env = ⟨0, 0⟩ := by
  unfold runMcpat
  cases hg : env.mcpatGen with
  | timedOut => rfl
  | raised => rfl
  | completed rc =>
    have hfail : rc ≠ 0 ∨ env.xmlExists = false ∨ env.xmlSize = 0 ∨
        env.mcpat = .timedOut ∨ env.mcpat = .raised ∨
        (∃ rc2, env.mcpat = .completed rc2 ∧ rc2 ≠ 0) := by
      unfold stageBFailed at h
      rcases h with h | h | ⟨rc2, h, hrc⟩ | h | h | h | h | h <;> simp_all
    rcases hfail with h5 | h5 | h5 | h5 | h5 | ⟨rc2, h5, hrc2⟩
    · simp [h5]
    · simp [h5]
    · simp [h5]
    · simp [h5]
    · simp [h5]
    · simp [h5, hrc2]

theorem evalStep_some (l : List (List (List Char))) (e : EvalInput) :
    evalStep (some l) e = some (l ++ [rowOf e]) := by
  unfold evalStep rowOf metricsOf
  rw [runSimulation_rows]
  rfl

theorem runLedger_some (es : List EvalInput) :
    ∀ l, runLedger (some l) es = some (l ++ es.map rowOf) := by
  induction es with
  | nil => intro l; simp [runLedger]
  | cons e es ih =>
    intro l
    show runLedger (evalStep (some l) e) es = _
    rw [evalStep_some, ih]
    simp

theorem runLedger_header (es : List EvalInput) (h : es ≠ []) :
    runLedger none es = some (csvHeaderRow :: es.map rowOf) := by
  cases es with
  | nil => exact absurd rfl h
  | cons e es =>
    show runLedger (evalStep none e) es = _
    have hstep : evalStep none e = some [csvHeaderRow, rowOf e] := by
      unfold evalStep rowOf metricsOf
      rw [runSimulation_rows]
      rfl
    rw [hstep, runLedger_some]
    simp

theorem natDigitsGo_length :
    ∀ (fuel n : ℕ) (acc : List Char) (k : ℕ), n < 10 ^ k → 1 ≤ k →
      n < fuel → (natDigitsGo fuel n acc).length ≤ k + acc.length := by
  intro fuel
  induction fuel with
  | zero => intro n acc k _ _ h3; omega
  | succ fuel ih =>
    intro n acc k h1 h2 h3
    rw [natDigitsGo]
    split
    · simp
      omega
    next hdiv =>
      have h10 : 10 ≤ n := by
        by_contra hlt
        exact hdiv (Nat.div_eq_of_lt (by omega))
      have hk2 : 2 ≤ k := by
        by_contra hk
        have hk1 : k = 1 := by omega
        subst hk1
        simp at h1
        omega
      have hdn : n / 10 < n := Nat.div_lt_self (by omega) (by omega)
      have hstep : n / 10 < 10 ^ (k - 1) := by
        have hpow : 10 ^ k = 10 ^ (k - 1) * 10 := by
          rw [← pow_succ]
          congr 1
          omega
        rw [hpow] at h1
        exact Nat.lt_of_mul_lt_mul_right (lt_of_le_of_lt (Nat.div_mul_le_self n 10) h1)
      have := ih (n / 10) (Nat.digitChar (n % 10) :: acc) (k - 1) hstep (by omega) (by omega)
      simp at this
      omega

theorem natDigits_length_le (n k : ℕ) (h1 : n < 10 ^ k) (h2 : 1 ≤ k) :
    (natDigits n).length ≤ k := by
  have := natDigitsGo_length (n + 1) n [] k h1 h2 (by omega)
  simpa [natDigits] using this

theorem padZeros_length (p : ℕ) (l : List Char) (h : l.length ≤ p) :
    (padZeros p l).length = p := by
  simp [padZeros]
  omega

theorem padZeros_chars (p : ℕ) (l : List Char) (hl : ∀ c ∈ l, c.isDigit) :
    ∀ c ∈ padZeros p l, c.isDigit := by
  intro c hc
  rcases List.mem_append.mp hc with h | h
  · have := List.eq_of_mem_replicate h
    subst this
    decide
  · exact hl c h

theorem pyFix_shape (p : ℕ) (q : ℚ) (hp : 1 ≤ p) :
    hasFracDigits p (pyFix p (.fin q)) := by
  refine ⟨(if q < 0 then ['-'] else []) ++
      natDigits ((roundHalfEven (|q| * 10 ^ p)).toNat / 10 ^ p),
    padZeros p (natDigits ((roundHalfEven (|q| * 10 ^ p)).toNat % 10 ^ p)),
    ?_, ?_, ?_, ?_⟩
  · simp [pyFix]
  · refine padZeros_length p _ (natDigits_length_le _ p ?_ hp)
    exact Nat.mod_lt _ (by positivity)
  · exact padZeros_chars p _ (natDigits_chars _)
  · intro hdot
    rcases List.mem_append.mp hdot with h | h
    · split at h
      · simp at h
      · simp at h
    · have := natDigits_chars _ '.' h
      exact absurd this (by decide)

/-! ### Claim theorems -/

/-- C1: for every evaluation, the derived metrics satisfy exactly
`total_power = runtime_power + leakage_power`, `energy = total_power * cpi`
(cpi, not sim_seconds, as the time proxy) and `edp = energy * cpi`; and on
the fixture stats (`system.cpu.cpi 2.500000`) and power report
(`Runtime Dynamic = 0.8 W`, `Total Leakage = 0.2 W`) the pipeline yields
ipc = 0.4, cpi = 2.5, total_power = 1, energy = 2.5, edp = 6.25. -/
theorem claimC1_metric_formulas :
    (∀ g m,
      (calculateFinalMetrics g m).total_power =
        m.runtime_dynamic + m.total_leakage ∧
      (calculateFinalMetrics g m).energy =
        EF.mul (.fin (calculateFinalMetrics g m).total_power)
          (calculateFinalMetrics g m).cpi ∧
      (calculateFinalMetrics g m).edp =
        EF.mul (calculateFinalMetrics g m).energy
          (calculateFinalMetrics g m).cpi) ∧
    ((calculateFinalMetrics (parseGem5Stats statsFixture)
        (parseMcpatOutput powerFixture)).ipc = .fin (2 / 5) ∧
      (calculateFinalMetrics (parseGem5Stats statsFixture)
        (parseMcpatOutput powerFixture)).cpi = .fin (5 / 2) ∧
      (calculateFinalMetrics (parseGem5Stats statsFixture)
        (parseMcpatOutput powerFixture)).total_power = 1 ∧
      (calculateFinalMetrics (parseGem5Stats statsFixture)
        (parseMcpatOutput powerFixture)).energy = .fin (5 / 2) ∧
      (calculateFinalMetrics (parseGem5Stats statsFixture)
        (parseMcpatOutput powerFixture)).edp = .fin (25 / 4)) := by
  refine ⟨fun g m => ⟨rfl, rfl, rfl⟩, ?_⟩
  have hc : searchCpi statsFixture = some (['2'], ['5', '0', '0', '0', '0', '0']) := by
    decide
  have hr : searchRuntimeDynamic powerFixture = some (['0'], ['8']) := by decide
  have hl : searchTotalLeakage powerFixture = some (['0'], ['2']) := by decide
  have e1 : floatOfGroup (['2'], ['5', '0', '0', '0', '0', '0']) = 5 / 2 := by
    have d1 : digitsVal ['2'] = 2 := by decide
    have d2 : digitsVal ['5', '0', '0', '0', '0', '0'] = 500000 := by decide
    simp [floatOfGroup, ratOfDigits, d1, d2]
    norm_num
  have e2 : floatOfGroup (['0'], ['8']) = 4 / 5 := by
    have d1 : digitsVal ['0'] = 0 := by decide
    have d2 : digitsVal ['8'] = 8 := by decide
    simp [floatOfGroup, ratOfDigits, d1, d2]
    norm_num
  have e3 : floatOfGroup (['0'], ['2']) = 1 / 5 := by
    have d1 : digitsVal ['0'] = 0 := by decide
    have d2 : digitsVal ['2'] = 2 := by decide
    simp [floatOfGroup, ratOfDigits, d1, d2]
    norm_num
  simp only [parseGem5Stats, parseMcpatOutput, hc, hr, hl, Option.map_some,
    Option.getD_some, e1, e2, e3, calculateFinalMetrics]
  norm_num [EF.mul, e2, e3]

/-- C4: the SimId allocator is a shared counter starting at 1 whose
read-then-increment is atomic under the lock; the ids of `N * M`
serialised allocations are pairwise distinct, strictly increasing in
allocation order, and cover exactly the interval `[1, N * M]`. -/
theorem claimC4_simid_allocation (N M : ℕ) :
    (allocTrace 1 (N * M)).length = N * M ∧
    List.Pairwise (· < ·) (allocTrace 1 (N * M)) ∧
    (allocTrace 1 (N * M)).Nodup ∧
    (∀ j, j ∈ allocTrace 1 (N * M) ↔ 1 ≤ j ∧ j ≤ N * M) := by
  refine ⟨allocTrace_length _ 1, allocTrace_pairwise _ 1, ?_, ?_⟩
  · exact (allocTrace_pairwise _ 1).imp fun h => Nat.ne_of_lt h
  · intro j
    rw [allocTrace_mem]
    omega

/-- C5: `decode_individual` is total and clamps every entry into the
parameter's index range, returning one value per parameter drawn from
that parameter's allowed list; `get_bounds` returns all-zero lower bounds
and inclusive upper bounds `len(values) - 1` per parameter. -/
theorem claimC5_decode_total :
    (∀ x : List ℤ, x.length = DESIGN_SPACE.length →
      List.Forall₂ (fun p q => q.1 = p.1 ∧ q.2 ∈ p.2) DESIGN_SPACE
        (decode_individual x)) ∧
    get_bounds.1 = List.replicate 12 0 ∧
    get_bounds.2 = [1, 0, 3, 2, 3, 1, 0, 0, 2, 2, 2, 1] := by
  refine ⟨?_, by decide, by decide⟩
  intro x hx
  have := decode_zip_forall2 DESIGN_SPACE (by decide) x hx
  simpa [decode_individual] using this

/-- Witness for C5: a candidate with out-of-range entries (5, -3, 7)
still decodes to one allowed value per parameter. -/
theorem claimC5_decode_total_witness :
    List.Forall₂ (fun p q => q.1 = p.1 ∧ q.2 ∈ p.2) DESIGN_SPACE
      (decode_individual [5, -3, 0, 1, 7, 0, 0, 0, 1, 2, 2, 1]) :=
  claimC5_decode_total.1 [5, -3, 0, 1, 7, 0, 0, 0, 1, 2, 2, 1] (by decide)

/-- C9: the scratch directory created for an evaluation does not exist
after `run_simulation` returns, on every exit path (success, Stage A
failure, timeout, or unexpected exception). -/
theorem claimC9_scratch_cleanup (logOn : Bool) (env : Env) (cfg : Config)
    (simId : ℤ) (ts : List Char) :
    (runSimulation logOn env cfg simId ts).tmpdirAfter = false := by
  unfold runSimulation
  cases env.gem5 <;> simp [failResult, cleanupTmpdir]
  split_ifs <;> rfl

/-- C2 (counterexample): a Stage A stats text whose cpi field parses as
the non-positive value 0 does not yield the canonical invalid sentinel:
the persisted record keeps cpi = 0 (not +inf), the parsed sim_seconds
and the Stage B powers. -/
theorem claimC2_sentinel_counterexample :
    searchCpi statsZeroCpi = some (['0'], ['0', '0', '0', '0', '0', '0']) ∧
    floatOfGroup (['0'], ['0', '0', '0', '0', '0', '0']) ≤ 0 ∧
    (runSimulation true envZeroCpi cfg0 1 ['T']).metrics.cpi = EF.fin 0 ∧
    (runSimulation true envZeroCpi cfg0 1 ['T']).metrics.runtime_power = 4 / 5 ∧
    (runSimulation true envZeroCpi cfg0 1 ['T']).metrics.sim_seconds = 3 / 2 ∧
    (runSimulation true envZeroCpi cfg0 1 ['T']).metrics ≠ getInvalidMetrics := by
  have hc : searchCpi statsZeroCpi = some (['0'], ['0', '0', '0', '0', '0', '0']) := by
    decide
  have hss : searchSimSeconds statsZeroCpi =
      some (['1'], ['5', '0', '0', '0', '0', '0']) := by decide
  have hr : searchRuntimeDynamic powerFixture = some (['0'], ['8']) := by decide
  have hzero : floatOfGroup (['0'], ['0', '0', '0', '0', '0', '0']) = 0 := by
    have d1 : digitsVal ['0'] = 0 := by decide
    have d2 : digitsVal ['0', '0', '0', '0', '0', '0'] = 0 := by decide
    simp [floatOfGroup, ratOfDigits, d1, d2]
  have e2 : floatOfGroup (['0'], ['8']) = 4 / 5 := by
    have d1 : digitsVal ['0'] = 0 := by decide
    have d2 : digitsVal ['8'] = 8 := by decide
    simp [floatOfGroup, ratOfDigits, d1, d2]
    norm_num
  have ess : floatOfGroup (['1'], ['5', '0', '0', '0', '0', '0']) = 3 / 2 := by
    have d1 : digitsVal ['1'] = 1 := by decide
    have d2 : digitsVal ['5', '0', '0', '0', '0', '0'] = 500000 := by decide
    simp [floatOfGroup, ratOfDigits, d1, d2]
    norm_num
  have hm : (runSimulation true envZeroCpi cfg0 1 ['T']).metrics =
      calculateFinalMetrics (parseGem5Stats statsZeroCpi)
        (parseMcpatOutput powerFixture) := rfl
  have hcpi : (runSimulation true envZeroCpi cfg0 1 ['T']).metrics.cpi = EF.fin 0 := by
    rw [hm]
    simp [calculateFinalMetrics, parseGem5Stats, hc, hzero]
  refine ⟨hc, le_of_eq hzero, hcpi, ?_, ?_, ?_⟩
  · rw [hm]
    simp [calculateFinalMetrics, parseMcpatOutput, hr, e2]
  · rw [hm]
    simp [calculateFinalMetrics, parseGem5Stats, hc, hss, ess]
  · intro h
    rw [h] at hcpi
    simp [getInvalidMetrics] at hcpi

/-- C2 (amended): the canonical full sentinel is produced exactly by the
Stage A failure paths of `run_simulation`; a stats text with no cpi field
only forces `cpi = +inf`, `ipc = 0` in the parsed record, and a cpi that
parses as a non-positive value keeps that value with `ipc = 0`. -/
theorem claimC2_sentinel_amended :
    (∀ content, searchCpi content = none →
      (parseGem5Stats content).cpi = EF.pinf ∧
      (parseGem5Stats content).ipc = EF.fin 0) ∧
    (∀ content g, searchCpi content = some g → ¬ 0 < floatOfGroup g →
      (parseGem5Stats content).cpi = EF.fin (floatOfGroup g) ∧
      (parseGem5Stats content).ipc = EF.fin 0) ∧
    (∀ logOn env cfg simId ts, gem5Failed env →
      (runSimulation logOn env cfg simId ts).metrics = getInvalidMetrics) := by
  refine ⟨?_, ?_, ?_⟩
  · intro content h
    exact ⟨by simp [parseGem5Stats, h], by simp [parseGem5Stats, h]⟩
  · intro content g hg hpos
    exact ⟨by simp [parseGem5Stats, hg], by simp [parseGem5Stats, hg, hpos]⟩
  · intro logOn env cfg simId ts h
    exact runSimulation_failed logOn env cfg simId ts h

/-- Witness for C2 (amended): concrete instances — a stats text with no
cpi parses to the `cpi = +inf, ipc = 0` pair, and a timed-out Stage A
yields the full sentinel. -/
theorem claimC2_sentinel_amended_witness :
    (parseGem5Stats ['x']).cpi = EF.pinf ∧
    (runSimulation true envTimeout cfg0 1 ['T']).metrics = getInvalidMetrics :=
  ⟨(claimC2_sentinel_amended.1 ['x'] (by decide)).1,
   claimC2_sentinel_amended.2.2 true envTimeout cfg0 1 ['T'] (Or.inl rfl)⟩

/-- C3 (counterexample): a Stage A parse failure (process succeeded,
stats text has no cpi line) is NOT converted to the canonical
invalid-metrics sentinel: the persisted and returned metrics keep the
parsed Stage B powers and sim_seconds alongside `cpi = +inf`. -/
theorem claimC3_evaluate_counterexample :
    searchCpi statsNoCpi = none ∧
    (evaluateIndividual true envNoCpi cfg0 1 ['T']).sim.metrics.cpi = EF.pinf ∧
    (evaluateIndividual true envNoCpi cfg0 1 ['T']).sim.metrics.runtime_power
      = 4 / 5 ∧
    (evaluateIndividual true envNoCpi cfg0 1 ['T']).sim.metrics.sim_seconds
      = 3 / 2 ∧
    (evaluateIndividual true envNoCpi cfg0 1 ['T']).sim.metrics
      ≠ getInvalidMetrics := by
  have hnone : searchCpi statsNoCpi = none := by decide
  have hss : searchSimSeconds statsNoCpi =
      some (['1'], ['5', '0', '0', '0', '0', '0']) := by decide
  have hr : searchRuntimeDynamic powerFixture = some (['0'], ['8']) := by decide
  have e2 : floatOfGroup (['0'], ['8']) = 4 / 5 := by
    have d1 : digitsVal ['0'] = 0 := by decide
    have d2 : digitsVal ['8'] = 8 := by decide
    simp [floatOfGroup, ratOfDigits, d1, d2]
    norm_num
  have ess : floatOfGroup (['1'], ['5', '0', '0', '0', '0', '0']) = 3 / 2 := by
    have d1 : digitsVal ['1'] = 1 := by decide
    have d2 : digitsVal ['5', '0', '0', '0', '0', '0'] = 500000 := by decide
    simp [floatOfGroup, ratOfDigits, d1, d2]
    norm_num
  have hm : (evaluateIndividual true envNoCpi cfg0 1 ['T']).sim.metrics =
      calculateFinalMetrics (parseGem5Stats statsNoCpi)
        (parseMcpatOutput powerFixture) := rfl
  have hrp : (evaluateIndividual true envNoCpi cfg0 1 ['T']).sim.metrics.runtime_power
      = 4 / 5 := by
    rw [hm]
    simp [calculateFinalMetrics, parseMcpatOutput, hr, e2]
  refine ⟨hnone, ?_, hrp, ?_, ?_⟩
  · rw [hm]
    simp [calculateFinalMetrics, parseGem5Stats, hnone]
  · rw [hm]
    simp [calculateFinalMetrics, parseGem5Stats, hnone, hss, ess]
  · intro heq
    rw [heq] at hrp
    norm_num [getInvalidMetrics] at hrp

/-- C3 (amended): `_evaluate` is total on every environment (it never
raises in the model); it always appends exactly one row to the ledger
and returns the objective vector `(-ipc, energy, edp)` of the resulting
metrics; every process-level Stage A failure (non-zero exit, timeout,
missing or empty output files, unexpected exception) yields the
canonical invalid sentinel; a parse failure (stats present but no cpi
line) instead yields `cpi = +inf`, `ipc = 0` while keeping the parsed
Stage B powers, sim_seconds and sim_ticks. -/
theorem claimC3_evaluate_amended (env : Env) (cfg : Config) (counter : ℕ)
    (ts : List Char) :
    (evaluateIndividual true env cfg counter ts).sim.rows.length = 1 ∧
    (evaluateIndividual true env cfg counter ts).objectives =
      (EF.neg (evaluateIndividual true env cfg counter ts).sim.metrics.ipc,
       (evaluateIndividual true env cfg counter ts).sim.metrics.energy,
       (evaluateIndividual true env cfg counter ts).sim.metrics.edp) ∧
    (gem5Failed env →
      (evaluateIndividual true env cfg counter ts).sim.metrics =
        getInvalidMetrics) ∧
    (env.gem5 = .completed 0 → env.statsExists = true →
      env.configJsonExists = true → env.configJsonSize ≠ 0 →
      searchCpi env.stats = none →
      (evaluateIndividual true env cfg counter ts).sim.metrics.cpi = EF.pinf ∧
      (evaluateIndividual true env cfg counter ts).sim.metrics.ipc = EF.fin 0 ∧
      (evaluateIndividual true env cfg counter ts).sim.metrics.runtime_power =
        (runMcpat env).runtime_dynamic ∧
      (evaluateIndividual true env cfg counter ts).sim.metrics.leakage_power =
        (runMcpat env).total_leakage ∧
      (evaluateIndividual true env cfg counter ts).sim.metrics.sim_seconds =
        ((searchSimSeconds env.stats).map floatOfGroup).getD 0 ∧
      (evaluateIndividual true env cfg counter ts).sim.metrics.sim_ticks =
        (searchSimTicks env.stats).map intOfGroup) := by
  refine ⟨?_, rfl, ?_, ?_⟩
  · show (runSimulation true env cfg _ _).rows.length = 1
    rw [runSimulation_rows]
    rfl
  · intro h
    exact runSimulation_failed _ _ _ _ _ h
  · intro hrc hst hcj hsz hnone
    have hm : (evaluateIndividual true env cfg counter ts).sim.metrics =
        calculateFinalMetrics (parseGem5Stats env.stats) (runMcpat env) := by
      show (runSimulation true env cfg _ _).metrics = _
      unfold runSimulation
      rw [hrc]
      simp [hst, hcj, hsz]
    rw [hm]
    simp [calculateFinalMetrics, parseGem5Stats, hnone]

/-- Witness for C3 (amended): a timed-out evaluation yields the full
sentinel, and a cpi-less successful Stage A yields `cpi = +inf`. -/
theorem claimC3_evaluate_amended_witness :
    (evaluateIndividual true envTimeout cfg0 5 ['T']).sim.metrics =
      getInvalidMetrics ∧
    (evaluateIndividual true envNoCpi cfg0 1 ['T']).sim.metrics.cpi =
      EF.pinf := by
  refine ⟨(claimC3_evaluate_amended envTimeout cfg0 5 ['T']).2.2.1
    (Or.inl rfl), ?_⟩
  exact ((claimC3_evaluate_amended envNoCpi cfg0 1 ['T']).2.2.2 rfl rfl rfl
    (by decide) (by decide)).1

/-- C7: when Stage A succeeds (exit 0, files present, cpi parsed) but any
Stage B step fails, the persisted record keeps the real ipc and cpi from
Stage A with zero runtime, leakage and total power, hence zero energy,
and the evaluation still logs exactly one row. -/
theorem claimC7_partial_success (env : Env) (cfg : Config) (simId : ℤ)
    (ts : List Char) (g : List Char × List Char)
    (hrc : env.gem5 = .completed 0) (hst : env.statsExists = true)
    (hcj : env.configJsonExists = true) (hsz : env.configJsonSize ≠ 0)
    (hcpi : searchCpi env.stats = some g) (hB : stageBFailed env) :
    (runSimulation true env cfg simId ts).metrics.cpi = EF.fin (floatOfGroup g) ∧
    (runSimulation true env cfg simId ts).metrics.ipc =
      (parseGem5Stats env.stats).ipc ∧
    (runSimulation true env cfg simId ts).metrics.runtime_power = 0 ∧
    (runSimulation true env cfg simId ts).metrics.leakage_power = 0 ∧
    (runSimulation true env cfg simId ts).metrics.total_power = 0 ∧
    (runSimulation true env cfg simId ts).metrics.energy = EF.fin 0 ∧
    (runSimulation true env cfg simId ts).rows.length = 1 := by
  have hm : (runSimulation true env cfg simId ts).metrics =
      calculateFinalMetrics (parseGem5Stats env.stats) ⟨0, 0⟩ := by
    unfold runSimulation
    rw [hrc]
    simp [hst, hcj, hsz, runMcpat_failed env hB]
  refine ⟨?_, ?_, ?_, ?_, ?_, ?_, ?_⟩
  · rw [hm]
    simp [calculateFinalMetrics, parseGem5Stats, hcpi]
  · rw [hm]
    rfl
  · rw [hm]
    rfl
  · rw [hm]
    rfl
  · rw [hm]
    simp [calculateFinalMetrics]
  · rw [hm]
    simp [calculateFinalMetrics, parseGem5Stats, hcpi, EF.mul]
  · rw [runSimulation_rows]
    rfl

/-- Witness for C7: Stage A fixture stats with a timed-out McPAT
translation step yield zero power and zero energy with the real cpi. -/
theorem claimC7_partial_success_witness :
    (runSimulation true envStageBFail cfg0 3 ['T']).metrics.runtime_power = 0 ∧
    (runSimulation true envStageBFail cfg0 3 ['T']).metrics.energy = EF.fin 0 := by
  have h := claimC7_partial_success envStageBFail cfg0 3 ['T']
    (['2'], ['5', '0', '0', '0', '0', '0']) rfl rfl rfl (by decide) (by decide)
    (Or.inl rfl)
  exact ⟨h.2.2.1, h.2.2.2.2.2.1⟩

/-- C10: the parsed power figures are non-negative (the patterns match
only unsigned decimal literals and default to 0), so total power is
non-negative, and every record with a finite cpi has a non-negative cpi,
energy and edp. -/
theorem claimC10_parsed_nonneg (stats out : List Char) :
    0 ≤ (calculateFinalMetrics (parseGem5Stats stats)
      (parseMcpatOutput out)).runtime_power ∧
    0 ≤ (calculateFinalMetrics (parseGem5Stats stats)
      (parseMcpatOutput out)).leakage_power ∧
    0 ≤ (calculateFinalMetrics (parseGem5Stats stats)
      (parseMcpatOutput out)).total_power ∧
    (∀ q, (calculateFinalMetrics (parseGem5Stats stats)
        (parseMcpatOutput out)).cpi = EF.fin q →
      0 ≤ q ∧
      (∃ e, (calculateFinalMetrics (parseGem5Stats stats)
          (parseMcpatOutput out)).energy = EF.fin e ∧ 0 ≤ e) ∧
      (∃ d, (calculateFinalMetrics (parseGem5Stats stats)
          (parseMcpatOutput out)).edp = EF.fin d ∧ 0 ≤ d)) := by
  obtain ⟨hr, hl⟩ := parseMcpatOutput_nonneg out
  have htot : 0 ≤ (parseMcpatOutput out).runtime_dynamic +
      (parseMcpatOutput out).total_leakage := add_nonneg hr hl
  refine ⟨hr, hl, htot, ?_⟩
  intro q hq
  have hcpi : ∃ g, searchCpi stats = some g ∧ q = floatOfGroup g := by
    cases h : searchCpi stats with
    | none =>
      exfalso
      simp [calculateFinalMetrics, parseGem5Stats, h] at hq
    | some g =>
      refine ⟨g, rfl, ?_⟩
      simp [calculateFinalMetrics, parseGem5Stats, h] at hq
      exact hq.symm
  obtain ⟨g, hg, hqval⟩ := hcpi
  have hq0 : 0 ≤ q := hqval ▸ floatOfGroup_nonneg g
  have hcpi2 : (parseGem5Stats stats).cpi = EF.fin q := by
    simp [parseGem5Stats, hg, hqval]
  refine ⟨hq0, ⟨((parseMcpatOutput out).runtime_dynamic +
      (parseMcpatOutput out).total_leakage) * q, ?_, mul_nonneg htot hq0⟩,
    ⟨((parseMcpatOutput out).runtime_dynamic +
      (parseMcpatOutput out).total_leakage) * q * q, ?_,
      mul_nonneg (mul_nonneg htot hq0) hq0⟩⟩
  · simp [calculateFinalMetrics, hcpi2, EF.mul]
  · simp [calculateFinalMetrics, hcpi2, EF.mul]

/-- Witness for C10: on the acceptance fixtures the record has finite
cpi 5/2 and non-negative total power, energy and edp. -/
theorem claimC10_parsed_nonneg_witness :
    0 ≤ (calculateFinalMetrics (parseGem5Stats statsFixture)
      (parseMcpatOutput powerFixture)).total_power ∧
    (∃ e, (calculateFinalMetrics (parseGem5Stats statsFixture)
        (parseMcpatOutput powerFixture)).energy = EF.fin e ∧ 0 ≤ e) ∧
    (∃ d, (calculateFinalMetrics (parseGem5Stats statsFixture)
        (parseMcpatOutput powerFixture)).edp = EF.fin d ∧ 0 ≤ d) := by
  have h := claimC10_parsed_nonneg statsFixture powerFixture
  have hc : searchCpi statsFixture = some (['2'], ['5', '0', '0', '0', '0', '0']) := by
    decide
  have hcpi : (calculateFinalMetrics (parseGem5Stats statsFixture)
      (parseMcpatOutput powerFixture)).cpi =
      EF.fin (floatOfGroup (['2'], ['5', '0', '0', '0', '0', '0'])) := by
    simp [calculateFinalMetrics, parseGem5Stats, hc]
  have h4 := h.2.2.2 _ hcpi
  exact ⟨h.2.2.1, h4.2.1, h4.2.2⟩

/-- C6 (counterexample): a run whose single evaluation succeeds in Stage
A but whose stats lack a `simTicks` line produces a ledger row whose
`sim_ticks` field is the literal string `None`, not the decimal
rendering of any integer. -/
theorem claimC6_ledger_counterexample :
    runLedger none [evalNoTicks] = some [csvHeaderRow, rowOf evalNoTicks] ∧
    (rowOf evalNoTicks).getD 22 [] = "None".toList ∧
    ¬ ∃ n : ℤ, (rowOf evalNoTicks).getD 22 [] = pyStrInt n := by
  have hticks : (metricsOf evalNoTicks).sim_ticks = none := by decide
  have h22 : (rowOf evalNoTicks).getD 22 [] = "None".toList := by
    simp [rowOf, renderRow, hticks, pyStrOptInt]
  refine ⟨?_, h22, ?_⟩
  · have h := runLedger_header [evalNoTicks] (List.cons_ne_nil _ _)
    simpa using h
  · rintro ⟨n, hn⟩
    rw [h22] at hn
    exact pyStrInt_ne_noneLit n hn.symm

/-- C6 (amended): after a run of K evaluations the ledger holds the
23-column header exactly once, first, followed by exactly K data rows;
each step only appends one row; in each row the metric fields are
rendered with the fixed-point formats (exactly 6 digits after the point
for finite values, 10 for edp), and the `sim_ticks` field is the decimal
rendering of the parsed integer when Stage A reported one (`0` on
sentinel rows) and the literal `None` otherwise. -/
theorem claimC6_ledger_amended (es : List EvalInput) (hne : es ≠ []) :
    runLedger none es = some (csvHeaderRow :: es.map rowOf) ∧
    (es.map rowOf).length = es.length ∧
    (csvHeaderRow :: es.map rowOf).count csvHeaderRow = 1 ∧
    (∀ l e, evalStep (some l) e = some (l ++ [rowOf e])) ∧
    (∀ e ∈ es, (rowOf e).length = 23 ∧
      (rowOf e).getD 14 [] = pyFix 6 (metricsOf e).ipc ∧
      (rowOf e).getD 15 [] = pyFix 6 (metricsOf e).cpi ∧
      (rowOf e).getD 16 [] = pyFix 6 (metricsOf e).energy ∧
      (rowOf e).getD 17 [] = pyFix 10 (metricsOf e).edp ∧
      (rowOf e).getD 18 [] = pyFix 6 (.fin (metricsOf e).runtime_power) ∧
      (rowOf e).getD 19 [] = pyFix 6 (.fin (metricsOf e).leakage_power) ∧
      (rowOf e).getD 20 [] = pyFix 6 (.fin (metricsOf e).total_power) ∧
      (rowOf e).getD 21 [] = pyFix 6 (.fin (metricsOf e).sim_seconds) ∧
      (rowOf e).getD 22 [] = pyStrOptInt (metricsOf e).sim_ticks) ∧
    (∀ q : ℚ, hasFracDigits 6 (pyFix 6 (.fin q)) ∧
      hasFracDigits 10 (pyFix 10 (.fin q))) := by
  refine ⟨runLedger_header es hne, by simp, ?_, evalStep_some, ?_, ?_⟩
  · have hnotin : csvHeaderRow ∉ es.map rowOf := by
      intro hmem
      obtain ⟨e, _, heq⟩ := List.mem_map.mp hmem
      exact renderRow_ne_header e.simId e.ts e.cfg (metricsOf e) heq
    simp [List.count_cons, List.count_eq_zero.mpr hnotin]
  · intro e _
    exact ⟨rfl, rfl, rfl, rfl, rfl, rfl, rfl, rfl, rfl, rfl⟩
  · intro q
    exact ⟨pyFix_shape 6 q (by norm_num), pyFix_shape 10 q (by norm_num)⟩

/-- Witness for C6 (amended): a concrete two-evaluation run produces the
header followed by exactly two data rows, the header occurring once. -/
theorem claimC6_ledger_amended_witness :
    runLedger none [evalFixture, evalNoTicks] =
      some [csvHeaderRow, rowOf evalFixture, rowOf evalNoTicks] ∧
    (csvHeaderRow :: [evalFixture, evalNoTicks].map rowOf).count csvHeaderRow
      = 1 := by
  have h := claimC6_ledger_amended [evalFixture, evalNoTicks]
    (List.cons_ne_nil _ _)
  exact ⟨by simpa using h.1, h.2.2.1⟩

/-- C8 (counterexample): `num_fu_read`/`num_fu_write` are design-space
parameters, but the `NSGA-II` variant's Stage A command line contains no
`--num_fu_read`/`--num_fu_write` flag for a concrete configuration. -/
theorem claimC8_command_counterexample :
    "num_fu_read".toList ∈ DESIGN_SPACE.map Prod.fst ∧
    "num_fu_write".toList ∈ DESIGN_SPACE.map Prod.fst ∧
    "--num_fu_read".toList ∉ buildGem5Command ws0 1234 cfg0 "/dev/shm/sim_0001".toList ∧
    "--num_fu_write".toList ∉ buildGem5Command ws0 1234 cfg0 "/dev/shm/sim_0001".toList := by
  decide

/-- C8 (amended): the Test variant's command line carries one flag/value
pair per design-space parameter (cache sizes as literal strings, the
other parameters rendered as integers); the `NSGA-II` variant carries
the eight cache flags and the two queue flags but omits the two
functional-unit flags (its argument vector has 27 entries, the Test
variant's 31). -/
theorem claimC8_command_amended (ws : SimPaths) (pid : ℤ) (cfgT : ConfigT)
    (cfg : Config) (outdir : List Char) :
    hasArgPair (buildGem5CommandTest ws pid cfgT outdir) "--l1i_size".toList cfgT.L1I_size ∧
    hasArgPair (buildGem5CommandTest ws pid cfgT outdir) "--l1i_assoc".toList (pyStrInt cfgT.L1I_assoc) ∧
    hasArgPair (buildGem5CommandTest ws pid cfgT outdir) "--l1d_size".toList cfgT.L1D_size ∧
    hasArgPair (buildGem5CommandTest ws pid cfgT outdir) "--l1d_assoc".toList (pyStrInt cfgT.L1D_assoc) ∧
    hasArgPair (buildGem5CommandTest ws pid cfgT outdir) "--l2_size".toList cfgT.L2_size ∧
    hasArgPair (buildGem5CommandTest ws pid cfgT outdir) "--l2_assoc".toList (pyStrInt cfgT.L2_assoc) ∧
    hasArgPair (buildGem5CommandTest ws pid cfgT outdir) "--l3_size".toList cfgT.L3_size ∧
    hasArgPair (buildGem5CommandTest ws pid cfgT outdir) "--l3_assoc".toList (pyStrInt cfgT.L3_assoc) ∧
    hasArgPair (buildGem5CommandTest ws pid cfgT outdir) "--lq_entries".toList (pyStrInt cfgT.load_queue) ∧
    hasArgPair (buildGem5CommandTest ws pid cfgT outdir) "--sq_entries".toList (pyStrInt cfgT.store_queue) ∧
    hasArgPair (buildGem5CommandTest ws pid cfgT outdir) "--num_fu_read".toList (pyStrInt cfgT.num_fu_read) ∧
    hasArgPair (buildGem5CommandTest ws pid cfgT outdir) "--num_fu_write".toList (pyStrInt cfgT.num_fu_write) ∧
    hasArgPair (buildGem5Command ws pid cfg outdir) "--l1i_size".toList cfg.L1I_size ∧
    hasArgPair (buildGem5Command ws pid cfg outdir) "--l1i_assoc".toList (pyStrInt cfg.L1I_assoc) ∧
    hasArgPair (buildGem5Command ws pid cfg outdir) "--l1d_size".toList cfg.L1D_size ∧
    hasArgPair (buildGem5Command ws pid cfg outdir) "--l1d_assoc".toList (pyStrInt cfg.L1D_assoc) ∧
    hasArgPair (buildGem5Command ws pid cfg outdir) "--l2_size".toList cfg.L2_size ∧
    hasArgPair (buildGem5Command ws pid cfg outdir) "--l2_assoc".toList (pyStrInt cfg.L2_assoc) ∧
    hasArgPair (buildGem5Command ws pid cfg outdir) "--l3_size".toList cfg.L3_size ∧
    hasArgPair (buildGem5Command ws pid cfg outdir) "--l3_assoc".toList (pyStrInt cfg.L3_assoc) ∧
    hasArgPair (buildGem5Command ws pid cfg outdir) "--lq_entries".toList (pyStrInt cfg.load_queue) ∧
    hasArgPair (buildGem5Command ws pid cfg outdir) "--sq_entries".toList (pyStrInt cfg.store_queue) ∧
    (buildGem5Command ws pid cfg outdir).length = 27 ∧
    (buildGem5CommandTest ws pid cfgT outdir).length = 31 :=
  ⟨⟨7, rfl⟩, ⟨9, rfl⟩, ⟨11, rfl⟩, ⟨13, rfl⟩, ⟨15, rfl⟩, ⟨17, rfl⟩, ⟨19, rfl⟩,
   ⟨21, rfl⟩, ⟨23, rfl⟩, ⟨25, rfl⟩, ⟨27, rfl⟩, ⟨29, rfl⟩,
   ⟨7, rfl⟩, ⟨9, rfl⟩, ⟨11, rfl⟩, ⟨13, rfl⟩, ⟨15, rfl⟩, ⟨17, rfl⟩, ⟨19, rfl⟩,
   ⟨21, rfl⟩, ⟨23, rfl⟩, ⟨25, rfl⟩, rfl, rfl⟩
